import Mathlib

/-!
Verification of the electricity time-bucketing pipeline implemented three times in
this repository: utils/pandas_electricity.py, utils/polars_electricity.py and
utils/15-minute-duckdb_electricity.py.

Timestamps are modelled as whole minutes since 0001-01-01T00:00 in the proleptic
Gregorian calendar (the calendar backing both the Python datetime library and the
DuckDB date functions used by the scripts); meter values are exact rationals.
-/

/-! Calendar model shared by all three scripts. -/

/-- Gregorian leap-year rule, as implemented by Python datetime and DuckDB dates. -/
def isLeapYear (y : Nat) : Bool :=
  (y % 4 == 0 && y % 100 != 0) || y % 400 == 0

/-- Cumulative number of days before month m in year y (month 1 = January). -/
def daysBeforeMonth (y m : Nat) : Nat :=
  (match m with
   | 1 => 0 | 2 => 31 | 3 => 59 | 4 => 90 | 5 => 120 | 6 => 151 | 7 => 181
   | 8 => 212 | 9 => 243 | 10 => 273 | 11 => 304 | _ => 334)
  + (if 3 ≤ m ∧ isLeapYear y then 1 else 0)

/-- Proleptic-Gregorian ordinal day number of a date, with 0001-01-01 as day 1.
This matches Python date.toordinal. -/
def toOrdinal (y m d : Nat) : Nat :=
  365 * (y - 1) + (y - 1) / 4 - (y - 1) / 100 + (y - 1) / 400 + daysBeforeMonth y m + d

/-- Weekday of an ordinal day, with Monday = 0 and Sunday = 6, matching the
Python datetime.weekday method used by last_sunday (ordinal 1 is a Monday). -/
def weekdayOfOrdinal (o : Nat) : Nat := (o - 1) % 7

/-- Year of an ordinal day (inverse of toOrdinal on the year component), using the
standard 400/100/4/1-year decomposition that Python date.fromordinal performs. -/
def yearOfOrdinal (o : Nat) : Nat :=
  let n := o - 1
  let n400 := n / 146097
  let r400 := n % 146097
  let n100 := r400 / 36524
  let r100 := r400 % 36524
  let n4 := r100 / 1461
  let r4 := r100 % 1461
  let n1 := r4 / 365
  let y := 400 * n400 + 100 * n100 + 4 * n4 + n1 + 1
  if n1 == 4 || n100 == 4 then y - 1 else y

/-- Year of a minute-resolution timestamp (1440 minutes per day, day 0 is ordinal 1). -/
def yearOfMinutes (ts : Nat) : Nat := yearOfOrdinal (ts / 1440 + 1)

/-- Minute-resolution timestamp of a civil date and time of day. -/
def mkTS (y m d hh mm : Nat) : Nat := (toOrdinal y m d - 1) * 1440 + 60 * hh + mm

/-! Data model shared by the three scripts. -/

/-- Row of the input CSV after combining Date and Time: a local timestamp with the
two cumulative counters P and OP. -/
structure Reading where
  t : Nat
  P : ℚ
  OP : ℚ

/-- Span between two consecutive readings, carrying the UTC start and end
timestamps and the consumption deltas (next minus current). -/
structure MeterInterval where
  start : Nat
  next : Nat
  dp : ℚ
  dop : ℚ

/-- Row of the one-minute interpolated series: MinuteGrid timestamp plus the
apportioned P_Value and OP_Value, absent values modelled as none. -/
structure MinuteRow where
  grid : Nat
  pval : Option ℚ
  opval : Option ℚ

/-- Row of the 15-minute bucket output. The usage type is a parameter because the
pandas and polars sums return a number while the duckdb SUM can return NULL. -/
structure BucketRow (β : Type) where
  bucket : Nat
  minDT : Option Nat
  maxDT : Option Nat
  minutes : Nat
  pUsage : β
  opUsage : β

/-! Sorting of readings by timestamp. All three scripts sort the readings by
UTC_DateTime (sort_values, sort, ORDER BY); an insertion sort models this. -/

/-- Insert a reading into a list sorted by timestamp. -/
def insertByTime (r : Reading) : List Reading → List Reading
  | [] => [r]
  | x :: xs => if r.t ≤ x.t then r :: x :: xs else x :: insertByTime r xs

/-- Sort readings ascending by timestamp. -/
def sortByTime : List Reading → List Reading
  | [] => []
  | x :: xs => insertByTime x (sortByTime xs)

/-- Consecutive-pair intervals of a reading list: the shift(-1) / LEAD step
followed by dropping the final row whose Next_DateTime is null. The last reading
only ever appears as the end of the previous interval. -/
def intervalsOf (rs : List Reading) : List MeterInterval :=
  (rs.zip rs.tail).map fun p =>
    { start := p.1.t, next := p.2.t, dp := p.2.P - p.1.P, dop := p.2.OP - p.1.OP }

/-! Minute grid and tariff classification, identical in the three scripts. -/

/-- Peak window start, the literal time(6, 30) respectively TIME 06:30:00. -/
def peak_start : Nat := 6 * 60 + 30

/-- Peak window end, the literal time(23, 30) respectively TIME 23:30:00. -/
def peak_end : Nat := 23 * 60 + 30

/-- Tariff classification of a minute timestamp by its time of day:
Peak when strictly after 06:30 and at or before 23:30, as in the expression
t > peak_start and t <= peak_end of the scripts. -/
def isPeakMinute (ts : Nat) : Bool :=
  peak_start < ts % 1440 && ts % 1440 ≤ peak_end

/-- List of n consecutive minutes strictly after s. -/
def slotsFrom (s : Nat) : Nat → List Nat
  | 0 => []
  | n + 1 => (s + 1) :: slotsFrom (s + 1) n

/-- Minute grid of an interval: every whole minute strictly after the start, up to
and including the end, mirroring the while current <= end loop and the
generate_series(start + 1 minute, end, 1 minute) call. -/
def minuteSlots (s last : Nat) : List Nat := slotsFrom s (last - s)

/-- Count of Peak minutes of an interval (p_mins / Total_P_Mins). -/
def p_mins (iv : MeterInterval) : Nat :=
  ((minuteSlots iv.start iv.next).filter fun m => isPeakMinute m).length

/-- Count of Off-Peak minutes of an interval (op_mins / Total_OP_Mins). -/
def op_mins (iv : MeterInterval) : Nat :=
  ((minuteSlots iv.start iv.next).filter fun m => !isPeakMinute m).length

/-! Basic properties of the minute grid. -/

theorem mem_slotsFrom {m : Nat} : ∀ (n s : Nat), m ∈ slotsFrom s n ↔ s < m ∧ m ≤ s + n := by
  intro n
  induction n with
  | zero => intro s; simp [slotsFrom]
  | succ k ih =>
      intro s
      simp only [slotsFrom, List.mem_cons, ih (s + 1)]
      omega

theorem mem_minuteSlots {m s last : Nat} : m ∈ minuteSlots s last ↔ s < m ∧ m ≤ last := by
  rw [minuteSlots, mem_slotsFrom]
  omega

theorem length_slotsFrom : ∀ (n s : Nat), (slotsFrom s n).length = n := by
  intro n
  induction n with
  | zero => intro s; rfl
  | succ k ih => intro s; simp [slotsFrom, ih]

theorem length_minuteSlots (s last : Nat) : (minuteSlots s last).length = last - s := by
  rw [minuteSlots, length_slotsFrom]

/-! Aggregation into 15-minute buckets, shared shape of groupby / group_by /
GROUP BY with ascending sort on the bucket key. -/

/-- Keys of a list with duplicates removed (keeping one occurrence each). -/
def dedupKeys : List Nat → List Nat
  | [] => []
  | k :: ks => if k ∈ dedupKeys ks then dedupKeys ks else k :: dedupKeys ks

/-- Insert a key into an ascending list of keys. -/
def insertKey (k : Nat) : List Nat → List Nat
  | [] => [k]
  | x :: xs => if k ≤ x then k :: x :: xs else x :: insertKey k xs

/-- Sort keys ascending. -/
def sortKeys : List Nat → List Nat
  | [] => []
  | x :: xs => insertKey x (sortKeys xs)

/-- Distinct bucket keys of a minute series, ascending. -/
def bucketKeys (bucketOf : Nat → Nat) (rows : List MinuteRow) : List Nat :=
  sortKeys (dedupKeys (rows.map fun r => bucketOf r.grid))

/-- Sum of the present values of a column, with absent values skipped and an
all-absent column summing to 0: the pandas sum aggregation (skipna) and the
polars sum aggregation (null count excluded) behave this way. -/
def pandasSum (l : List (Option ℚ)) : ℚ := (l.filterMap id).sum

/-- SQL SUM of a column: NULL values are skipped, and the sum of a group with no
non-NULL value is NULL, as in the duckdb bucket query. -/
def sqlSum (l : List (Option ℚ)) : Option ℚ :=
  match l.filterMap id with
  | [] => none
  | xs => some xs.sum

/-- Group the minute rows by bucket key and aggregate min/max timestamp, row
count and the two usage sums, output ascending by bucket key. -/
def aggregateWith {β : Type} (sumF : List (Option ℚ) → β) (bucketOf : Nat → Nat)
    (rows : List MinuteRow) : List (BucketRow β) :=
  (bucketKeys bucketOf rows).map fun k =>
    let grp := rows.filter fun r => bucketOf r.grid == k
    { bucket := k
      minDT := (grp.map fun r => r.grid).min?
      maxDT := (grp.map fun r => r.grid).max?
      minutes := grp.length
      pUsage := sumF (grp.map fun r => r.pval)
      opUsage := sumF (grp.map fun r => r.opval) }

namespace Pandas

/-- Python last_sunday of utils/pandas_electricity.py (also repeated verbatim in
utils/polars_electricity.py): first day of the next month minus one day, then
step back to the most recent Sunday using the Monday-zero weekday. The result is
the ordinal day number. -/
def last_sunday (y m : Nat) : Nat :=
  let next_month := if m = 12 then toOrdinal (y + 1) 1 1 else toOrdinal y (m + 1) 1
  let last_day := next_month - 1
  last_day - (weekdayOfOrdinal last_day + 1) % 7

/-- Minute timestamp of the BST window start: 01:00 on last_sunday of March. -/
def bst_start (y : Nat) : Nat := (last_sunday y 3 - 1) * 1440 + 60

/-- Minute timestamp of the BST window end: 02:00 on last_sunday of October. -/
def bst_end (y : Nat) : Nat := (last_sunday y 10 - 1) * 1440 + 120

/-- Python is_bst: bst_start <= dt < bst_end for the year of dt. -/
def is_bst (dt : Nat) : Bool :=
  decide (bst_start (yearOfMinutes dt) ≤ dt) && decide (dt < bst_end (yearOfMinutes dt))

/-- Python convert_to_utc: subtract one hour when inside the BST window. -/
def convert_to_utc (dt : Nat) : Nat := if is_bst dt then dt - 60 else dt

/-- UTC conversion and sort: steps 2 to 4 of the pandas script. -/
def prepare (rs : List Reading) : List Reading :=
  sortByTime (rs.map fun r => { r with t := convert_to_utc r.t })

/-- Python expand_interval: count the Peak and Off-Peak minutes, build the two
rates (with the p_mins > 0 guard falling back to 0.0), then emit one row per
minute carrying the rate of its own category and None for the other. -/
def expand_interval (iv : MeterInterval) : List MinuteRow :=
  let p_rate : ℚ := if 0 < p_mins iv then iv.dp / (p_mins iv : ℚ) else 0
  let op_rate : ℚ := if 0 < op_mins iv then iv.dop / (op_mins iv : ℚ) else 0
  (minuteSlots iv.start iv.next).map fun m =>
    if isPeakMinute m then { grid := m, pval := some p_rate, opval := none }
    else { grid := m, pval := none, opval := some op_rate }

/-- One-minute series of the whole input: expand_interval applied to every
interval row, in order. -/
def minuteRows (rs : List Reading) : List MinuteRow :=
  (intervalsOf (prepare rs)).flatMap expand_interval

/-- Python calculate_bucket: subtract one minute, then truncate the minute of
hour down to a multiple of 15 (seconds are already zero on the minute grid). -/
def calculate_bucket (dt : Nat) : Nat :=
  let adjusted := dt - 1
  adjusted - adjusted % 60 + adjusted % 60 / 15 * 15

/-- Whole pandas pipeline to the 15-minute bucket table. -/
def pipeline (rs : List Reading) : List (BucketRow ℚ) :=
  aggregateWith pandasSum calculate_bucket (minuteRows rs)

end Pandas

namespace Duck

/-- DuckDB DAYOFWEEK on an ordinal day: Sunday = 0 through Saturday = 6
(ordinal 7, a Sunday, maps to 0). -/
def dayofweek (o : Nat) : Nat := o % 7

/-- Day of the bst_boundaries start: DATE_TRUNC month of April first, minus one
day, minus DAYOFWEEK % 7 days, i.e. the most recent Sunday on or before the last
day of March. -/
def bst_start_day (y : Nat) : Nat :=
  let last_day := toOrdinal y 4 1 - 1
  last_day - dayofweek last_day % 7

/-- Day of the bst_boundaries end: same computation from November first. -/
def bst_end_day (y : Nat) : Nat :=
  let last_day := toOrdinal y 11 1 - 1
  last_day - dayofweek last_day % 7

/-- Minute timestamp of bst_start: the boundary date plus TIME 01:00:00. -/
def bst_start_ts (y : Nat) : Nat := (bst_start_day y - 1) * 1440 + 60

/-- Minute timestamp of bst_end: the boundary date plus TIME 02:00:00. -/
def bst_end_ts (y : Nat) : Nat := (bst_end_day y - 1) * 1440 + 120

/-- CASE expression of the with_utc CTE: subtract one hour inside the window of
the year of the timestamp (the join on YEAR(LocalDateTime) selects that year). -/
def with_utc (dt : Nat) : Nat :=
  if bst_start_ts (yearOfMinutes dt) ≤ dt ∧ dt < bst_end_ts (yearOfMinutes dt) then dt - 60
  else dt

/-- UTC conversion and the ORDER BY UTC_DateTime of the window functions. -/
def prepare (rs : List Reading) : List Reading :=
  sortByTime (rs.map fun r => { r with t := with_utc r.t })

/-- CASE expressions of the with_rates CTE: a value only for the category of the
minute, guarded by a positive minute count of that category, NULL otherwise. -/
def with_rates (iv : MeterInterval) : List MinuteRow :=
  (minuteSlots iv.start iv.next).map fun m =>
    { grid := m
      pval := if isPeakMinute m ∧ 0 < p_mins iv then some (iv.dp / (p_mins iv : ℚ)) else none
      opval := if ¬isPeakMinute m ∧ 0 < op_mins iv then some (iv.dop / (op_mins iv : ℚ)) else none }

/-- Rows of the minute_data table in reading order. -/
def minuteRows (rs : List Reading) : List MinuteRow :=
  (intervalsOf (prepare rs)).flatMap with_rates

/-- TIME_BUCKET(INTERVAL 15 minutes, MinuteGridClean - INTERVAL 1 minute): the
grid is minute-aligned so MinuteGridClean equals MinuteGrid, and the bucket
origin of TIME_BUCKET is itself aligned to a 15-minute boundary, so the bucket is
the truncation of (dt - 1) to a multiple of 15 minutes. -/
def time_bucket (dt : Nat) : Nat := (dt - 1) / 15 * 15

/-- Whole duckdb pipeline to the exported 15-minute bucket table. -/
def pipeline (rs : List Reading) : List (BucketRow (Option ℚ)) :=
  aggregateWith sqlSum time_bucket (minuteRows rs)

end Duck

namespace Polars

/-- Python expand_minutes of utils/polars_electricity.py: builds three parallel
lists (minute grid, P values, OP values), where the column of the other category
receives float nan, modelled here as the absent value none. -/
def expand_minutes (iv : MeterInterval) : List Nat × List (Option ℚ) × List (Option ℚ) :=
  let p_rate : ℚ := if 0 < p_mins iv then iv.dp / (p_mins iv : ℚ) else 0
  let op_rate : ℚ := if 0 < op_mins iv then iv.dop / (op_mins iv : ℚ) else 0
  ((minuteSlots iv.start iv.next),
   (minuteSlots iv.start iv.next).map fun m => if isPeakMinute m then some p_rate else none,
   (minuteSlots iv.start iv.next).map fun m => if !isPeakMinute m then some op_rate else none)

/-- The when-is_nan-then-None-otherwise replacement applied to both value
columns after the minute DataFrame is built. -/
def replaceNan (v : Option ℚ) : Option ℚ := if v.isNone then none else v

/-- Minute rows assembled from the three parallel lists of expand_minutes,
with the nan-to-null replacement applied. The polars script reuses the same
last_sunday / is_bst / convert_to_utc functions as the pandas script, so its
prepared readings are Pandas.prepare. -/
def minuteRows (rs : List Reading) : List MinuteRow :=
  (intervalsOf (Pandas.prepare rs)).flatMap fun iv =>
    let t3 := expand_minutes iv
    List.zipWith (fun g pq => { grid := g, pval := replaceNan pq.1, opval := replaceNan pq.2 })
      t3.1 (t3.2.1.zip t3.2.2)

/-- The (MinuteGrid - 1 minute).dt.truncate(15m) bucket expression. -/
def bucket (dt : Nat) : Nat := (dt - 1) / 15 * 15

/-- Whole polars pipeline to the 15-minute bucket table: group_by Bucket with
sum aggregations (nulls skipped, all-null groups summing to 0), sorted by key. -/
def pipeline (rs : List Reading) : List (BucketRow ℚ) :=
  aggregateWith pandasSum bucket (minuteRows rs)

end Polars

/-! Helper lemmas about sums over option columns and filtered lists. -/

theorem sum_filterMap_getD : ∀ l : List (Option ℚ),
    (l.filterMap id).sum = (l.map fun o => o.getD 0).sum := by
  intro l
  induction l with
  | nil => rfl
  | cons o l ih =>
      cases o with
      | none => simpa using ih
      | some v => simpa [List.filterMap_cons] using congrArg (v + ·) ih

theorem sum_map_ite_const (p : Nat → Bool) (c : ℚ) : ∀ l : List Nat,
    (l.map fun m => if p m then c else 0).sum = ((l.filter p).length : ℚ) * c := by
  intro l
  induction l with
  | nil => simp
  | cons m l ih =>
      by_cases h : p m
      · simp [h, ih, add_mul, add_comm]
      · simp [h, ih]

theorem filterMap_ite (p : Nat → Bool) (c : ℚ) : ∀ l : List Nat,
    (l.filterMap fun m => if p m then some c else none)
      = List.replicate (l.filter p).length c := by
  intro l
  induction l with
  | nil => rfl
  | cons m l ih =>
      by_cases h : p m
      · simp [List.filterMap_cons, List.replicate_succ, h, ih]
      · simp [List.filterMap_cons, h, ih]

theorem sum_filter_split (p : MinuteRow → Bool) (f : MinuteRow → ℚ) : ∀ l : List MinuteRow,
    ((l.filter p).map f).sum + ((l.filter fun r => !p r).map f).sum = (l.map f).sum := by
  intro l
  induction l with
  | nil => simp
  | cons r l ih =>
      by_cases h : p r
      · simp only [List.filter_cons, h, if_pos] at *
        simp only [Bool.not_true, List.map_cons, List.sum_cons]
        rw [← ih]; ring_nf
        simp [add_assoc, add_comm, add_left_comm]
      · simp only [List.filter_cons, h] at *
        simp only [Bool.not_false, List.map_cons, List.sum_cons, if_neg, ite_false]
        rw [← ih]; ring_nf
        simp [add_assoc, add_comm, add_left_comm]

theorem sum_ite_filter (p : MeterInterval → Bool) (f : MeterInterval → ℚ) :
    ∀ l : List MeterInterval,
    (l.map fun x => if p x then f x else 0).sum = ((l.filter p).map f).sum := by
  intro l
  induction l with
  | nil => rfl
  | cons x l ih =>
      by_cases h : p x
      · simp [h, ih]
      · simp [h, ih]

theorem sum_map_flatMap (f : MinuteRow → ℚ) (g : MeterInterval → List MinuteRow) :
    ∀ l : List MeterInterval,
    ((l.flatMap g).map f).sum = (l.map fun iv => ((g iv).map f).sum).sum := by
  intro l
  induction l with
  | nil => rfl
  | cons iv l ih => simp [List.flatMap_cons, ih]

/-! Per-interval equivalence of the three expansion routines. -/

theorem p_mins_pos_of_peak_mem {iv : MeterInterval} {m : Nat}
    (hm : m ∈ minuteSlots iv.start iv.next) (hp : isPeakMinute m = true) :
    0 < p_mins iv := by
  have : m ∈ (minuteSlots iv.start iv.next).filter fun m => isPeakMinute m :=
    List.mem_filter.mpr ⟨hm, hp⟩
  exact List.length_pos.mpr (List.ne_nil_of_mem this)

theorem op_mins_pos_of_offpeak_mem {iv : MeterInterval} {m : Nat}
    (hm : m ∈ minuteSlots iv.start iv.next) (hp : isPeakMinute m = false) :
    0 < op_mins iv := by
  have : m ∈ (minuteSlots iv.start iv.next).filter fun m => !isPeakMinute m :=
    List.mem_filter.mpr ⟨hm, by simp [hp]⟩
  exact List.length_pos.mpr (List.ne_nil_of_mem this)

theorem with_rates_eq_expand_interval (iv : MeterInterval) :
    Duck.with_rates iv = Pandas.expand_interval iv := by
  unfold Duck.with_rates Pandas.expand_interval
  apply List.map_congr_left
  intro m hm
  by_cases hp : isPeakMinute m
  · have hpos : 0 < p_mins iv := p_mins_pos_of_peak_mem hm hp
    simp [hp, hpos]
  · have hpos : 0 < op_mins iv :=
      op_mins_pos_of_offpeak_mem hm (Bool.not_eq_true _ ▸ by simpa using hp)
    simp [hp, hpos]

theorem replaceNan_id (v : Option ℚ) : Polars.replaceNan v = v := by
  cases v <;> rfl

theorem zipWith_map_pair (f g : Nat → Option ℚ) : ∀ l : List Nat,
    List.zipWith
      (fun a pq => MinuteRow.mk a (Polars.replaceNan pq.1) (Polars.replaceNan pq.2))
      l ((l.map f).zip (l.map g))
    = l.map fun m => MinuteRow.mk m (Polars.replaceNan (f m)) (Polars.replaceNan (g m)) := by
  intro l
  induction l with
  | nil => rfl
  | cons m l ih => simp [ih]

theorem polars_rows_eq_expand_interval (iv : MeterInterval) :
    (let t3 := Polars.expand_minutes iv
     List.zipWith
       (fun g pq => MinuteRow.mk g (Polars.replaceNan pq.1) (Polars.replaceNan pq.2))
       t3.1 (t3.2.1.zip t3.2.2))
    = Pandas.expand_interval iv := by
  show List.zipWith _ (Polars.expand_minutes iv).1
        ((Polars.expand_minutes iv).2.1.zip (Polars.expand_minutes iv).2.2)
      = Pandas.expand_interval iv
  unfold Polars.expand_minutes Pandas.expand_interval
  rw [zipWith_map_pair]
  apply List.map_congr_left
  intro m hm
  by_cases hp : isPeakMinute m <;> simp [hp, replaceNan_id]

theorem polars_minuteRows_eq (rs : List Reading) :
    Polars.minuteRows rs = Pandas.minuteRows rs := by
  unfold Polars.minuteRows Pandas.minuteRows
  have h : (fun iv : MeterInterval =>
      let t3 := Polars.expand_minutes iv
      List.zipWith
        (fun g pq => MinuteRow.mk g (Polars.replaceNan pq.1) (Polars.replaceNan pq.2))
        t3.1 (t3.2.1.zip t3.2.2)) = Pandas.expand_interval :=
    funext fun iv => polars_rows_eq_expand_interval iv
  rw [h]

/-! Equality of the three bucket-key computations. -/

theorem calculate_bucket_eq (dt : Nat) : Pandas.calculate_bucket dt = (dt - 1) / 15 * 15 := by
  simp only [Pandas.calculate_bucket]
  omega

theorem pandas_bucket_eq_duck : Pandas.calculate_bucket = Duck.time_bucket := by
  funext dt
  rw [calculate_bucket_eq]
  rfl

theorem pandas_bucket_eq_polars : Pandas.calculate_bucket = Polars.bucket := by
  funext dt
  rw [calculate_bucket_eq]
  rfl

/-! Calendar facts: positions of the last days of March and October, and
agreement of the Python and DuckDB last-Sunday computations. -/

theorem toOrdinal_april (y : Nat) : toOrdinal y 4 1 - 1 = toOrdinal y 3 31 ∧ 91 ≤ toOrdinal y 4 1 := by
  unfold toOrdinal daysBeforeMonth
  cases h : isLeapYear y <;> simp [h]

theorem toOrdinal_march_last7 (y : Nat) : toOrdinal y 3 31 - 6 = toOrdinal y 3 25 := by
  unfold toOrdinal daysBeforeMonth
  cases h : isLeapYear y <;> simp [h]

theorem toOrdinal_november (y : Nat) :
    toOrdinal y 11 1 - 1 = toOrdinal y 10 31 ∧ 305 ≤ toOrdinal y 11 1 := by
  unfold toOrdinal daysBeforeMonth
  cases h : isLeapYear y <;> simp [h]

theorem toOrdinal_october_last7 (y : Nat) : toOrdinal y 10 31 - 6 = toOrdinal y 10 25 := by
  unfold toOrdinal daysBeforeMonth
  cases h : isLeapYear y <;> simp [h]

theorem duck_bst_start_day_eq (y : Nat) : Duck.bst_start_day y = Pandas.last_sunday y 3 := by
  simp only [Duck.bst_start_day, Pandas.last_sunday, Duck.dayofweek, weekdayOfOrdinal]
  have h := (toOrdinal_april y).2
  norm_num
  omega

theorem duck_bst_end_day_eq (y : Nat) : Duck.bst_end_day y = Pandas.last_sunday y 10 := by
  simp only [Duck.bst_end_day, Pandas.last_sunday, Duck.dayofweek, weekdayOfOrdinal]
  have h := (toOrdinal_november y).2
  norm_num
  omega

theorem duck_with_utc_eq : Duck.with_utc = Pandas.convert_to_utc := by
  funext dt
  unfold Duck.with_utc Pandas.convert_to_utc Pandas.is_bst
  unfold Duck.bst_start_ts Duck.bst_end_ts Pandas.bst_start Pandas.bst_end
  rw [duck_bst_start_day_eq, duck_bst_end_day_eq]
  by_cases h1 : (Pandas.last_sunday (yearOfMinutes dt) 3 - 1) * 1440 + 60 ≤ dt
  · by_cases h2 : dt < (Pandas.last_sunday (yearOfMinutes dt) 10 - 1) * 1440 + 120
    · simp [h1, h2]
    · simp [h1, h2]
  · simp [h1]

theorem duck_prepare_eq (rs : List Reading) : Duck.prepare rs = Pandas.prepare rs := by
  unfold Duck.prepare Pandas.prepare
  rw [duck_with_utc_eq]

/-- Last Sunday of March: it is a Sunday (Python weekday 6) and lies in the last
seven days of March. -/
theorem last_sunday_march (y : Nat) :
    weekdayOfOrdinal (Pandas.last_sunday y 3) = 6
    ∧ toOrdinal y 3 25 ≤ Pandas.last_sunday y 3
    ∧ Pandas.last_sunday y 3 ≤ toOrdinal y 3 31 := by
  simp only [Pandas.last_sunday, weekdayOfOrdinal]
  have h1 := (toOrdinal_april y).1
  have h2 := (toOrdinal_april y).2
  have h3 := toOrdinal_march_last7 y
  norm_num
  omega

/-- Last Sunday of October: it is a Sunday and lies in the last seven days of
October. -/
theorem last_sunday_october (y : Nat) :
    weekdayOfOrdinal (Pandas.last_sunday y 10) = 6
    ∧ toOrdinal y 10 25 ≤ Pandas.last_sunday y 10
    ∧ Pandas.last_sunday y 10 ≤ toOrdinal y 10 31 := by
  simp only [Pandas.last_sunday, weekdayOfOrdinal]
  have h1 := (toOrdinal_november y).1
  have h2 := (toOrdinal_november y).2
  have h3 := toOrdinal_october_last7 y
  norm_num
  omega

/-! Properties of the key machinery used by the bucket aggregation. -/

theorem insertKey_perm (k : Nat) : ∀ l : List Nat, (insertKey k l).Perm (k :: l) := by
  intro l
  induction l with
  | nil => exact List.Perm.refl _
  | cons x xs ih =>
      unfold insertKey
      by_cases h : k ≤ x
      · simp [h]
      · simp only [h, if_false]
        exact (ih.cons x).trans (List.Perm.swap k x xs)

theorem sortKeys_perm : ∀ l : List Nat, (sortKeys l).Perm l := by
  intro l
  induction l with
  | nil => exact List.Perm.refl _
  | cons x xs ih => exact (insertKey_perm x (sortKeys xs)).trans (ih.cons x)

theorem mem_dedupKeys {m : Nat} : ∀ l : List Nat, m ∈ dedupKeys l ↔ m ∈ l := by
  intro l
  induction l with
  | nil => simp [dedupKeys]
  | cons k ks ih =>
      unfold dedupKeys
      by_cases h : k ∈ dedupKeys ks
      · simp only [h, if_true, ih, List.mem_cons]
        constructor
        · exact Or.inr
        · rintro (rfl | hm)
          · exact ih.mp h
          · exact hm
      · simp [h, ih]

theorem nodup_dedupKeys : ∀ l : List Nat, (dedupKeys l).Nodup := by
  intro l
  induction l with
  | nil => exact List.nodup_nil
  | cons k ks ih =>
      unfold dedupKeys
      by_cases h : k ∈ dedupKeys ks
      · simpa [h] using ih
      · simpa [h] using ih

theorem nodup_bucketKeys (bucketOf : Nat → Nat) (rows : List MinuteRow) :
    (bucketKeys bucketOf rows).Nodup :=
  ((sortKeys_perm _).symm).nodup (nodup_dedupKeys _)

theorem mem_bucketKeys {bucketOf : Nat → Nat} {rows : List MinuteRow} {r : MinuteRow}
    (hr : r ∈ rows) : bucketOf r.grid ∈ bucketKeys bucketOf rows := by
  unfold bucketKeys
  rw [(sortKeys_perm _).mem_iff, mem_dedupKeys]
  exact List.mem_map_of_mem _ hr

/-- Summing a quantity group by group over a complete, duplicate-free key list
gives the sum over all rows: the conservation core of the bucket aggregation. -/
theorem sum_over_groups (g : MinuteRow → Nat) (f : MinuteRow → ℚ) :
    ∀ (keys : List Nat) (rows : List MinuteRow), keys.Nodup →
    (∀ r ∈ rows, g r ∈ keys) →
    (keys.map fun k => ((rows.filter fun r => g r == k).map f).sum).sum
      = (rows.map f).sum := by
  intro keys
  induction keys with
  | nil =>
      intro rows _ hcov
      have : rows = [] := List.eq_nil_iff_forall_not_mem.mpr fun r hr => by
        simpa using hcov r hr
      simp [this]
  | cons k ks ih =>
      intro rows hnd hcov
      have hkns : k ∉ ks := (List.nodup_cons.mp hnd).1
      have hnd' : ks.Nodup := (List.nodup_cons.mp hnd).2
      have hrest : ∀ k' ∈ ks,
          (rows.filter fun r => g r == k') =
          ((rows.filter fun r => !(g r == k)).filter fun r => g r == k') := by
        intro k' hk'
        rw [List.filter_filter]
        apply List.filter_congr
        intro r _
        by_cases h : g r = k'
        · have hkk : k' ≠ k := fun hc => hkns (hc ▸ hk')
          simp [h, hkk]
        · simp [h]
      have hcov' : ∀ r ∈ rows.filter fun r => !(g r == k), g r ∈ ks := by
        intro r hr
        rcases List.mem_filter.mp hr with ⟨hrr, hne⟩
        rcases List.mem_cons.mp (hcov r hrr) with h | h
        · simp [h] at hne
        · exact h
      calc
        (((k :: ks)).map fun k' => ((rows.filter fun r => g r == k').map f).sum).sum
            = ((rows.filter fun r => g r == k).map f).sum
              + (ks.map fun k' => ((rows.filter fun r => g r == k').map f).sum).sum := by
              simp
        _ = ((rows.filter fun r => g r == k).map f).sum
              + (ks.map fun k' =>
                  (((rows.filter fun r => !(g r == k)).filter fun r => g r == k').map f).sum).sum := by
              congr 1
              apply congrArg
              exact List.map_congr_left fun k' hk' => by rw [hrest k' hk']
        _ = ((rows.filter fun r => g r == k).map f).sum
              + ((rows.filter fun r => !(g r == k)).map f).sum := by
              rw [ih _ hnd' hcov']
        _ = (rows.map f).sum := sum_filter_split _ f rows

/-! Column sums of the aggregated output. -/

theorem agg_pandasSum_col (bucketOf : Nat → Nat) (rows : List MinuteRow)
    (col : MinuteRow → Option ℚ) :
    ((bucketKeys bucketOf rows).map fun k =>
        pandasSum ((rows.filter fun r => bucketOf r.grid == k).map col)).sum
      = (rows.map fun r => (col r).getD 0).sum := by
  have h1 : ∀ k : Nat, pandasSum ((rows.filter fun r => bucketOf r.grid == k).map col)
      = ((rows.filter fun r => bucketOf r.grid == k).map fun r => (col r).getD 0).sum := by
    intro k
    unfold pandasSum
    rw [sum_filterMap_getD, List.map_map]
    rfl
  rw [List.map_congr_left fun k _ => h1 k]
  exact sum_over_groups (fun r => bucketOf r.grid) (fun r => (col r).getD 0)
    (bucketKeys bucketOf rows) rows (nodup_bucketKeys _ _) (fun r hr => mem_bucketKeys hr)

theorem pandas_pipeline_pUsage_sum (rs : List Reading) :
    ((Pandas.pipeline rs).map fun b => b.pUsage).sum
      = ((Pandas.minuteRows rs).map fun r => r.pval.getD 0).sum := by
  unfold Pandas.pipeline aggregateWith
  rw [List.map_map]
  exact agg_pandasSum_col Pandas.calculate_bucket (Pandas.minuteRows rs) (fun r => r.pval)

theorem pandas_pipeline_opUsage_sum (rs : List Reading) :
    ((Pandas.pipeline rs).map fun b => b.opUsage).sum
      = ((Pandas.minuteRows rs).map fun r => r.opval.getD 0).sum := by
  unfold Pandas.pipeline aggregateWith
  rw [List.map_map]
  exact agg_pandasSum_col Pandas.calculate_bucket (Pandas.minuteRows rs) (fun r => r.opval)

/-! Per-interval sums of the expanded minute rows. -/

theorem expand_pval_getD_sum (iv : MeterInterval) :
    ((Pandas.expand_interval iv).map fun r => r.pval.getD 0).sum
      = if 0 < p_mins iv then iv.dp else 0 := by
  simp only [Pandas.expand_interval]
  rw [List.map_map]
  have hfun : ((fun r : MinuteRow => r.pval.getD 0) ∘ fun m =>
      if isPeakMinute m then
        ({ grid := m,
           pval := some (if 0 < p_mins iv then iv.dp / (p_mins iv : ℚ) else 0),
           opval := none } : MinuteRow)
      else
        { grid := m, pval := none,
          opval := some (if 0 < op_mins iv then iv.dop / (op_mins iv : ℚ) else 0) })
      = fun m => if isPeakMinute m
          then (if 0 < p_mins iv then iv.dp / (p_mins iv : ℚ) else 0) else 0 := by
    funext m
    by_cases h : isPeakMinute m <;> simp [h]
  rw [hfun, sum_map_ite_const]
  by_cases h : 0 < p_mins iv
  · rw [if_pos h, if_pos h]
    have hne : ((p_mins iv : ℚ)) ≠ 0 := Nat.cast_ne_zero.mpr (Nat.pos_iff_ne_zero.mp h)
    show ((p_mins iv : ℚ)) * (iv.dp / (p_mins iv : ℚ)) = iv.dp
    rw [mul_comm, div_mul_cancel₀ _ hne]
  · rw [if_neg h, if_neg h]
    have h0 : p_mins iv = 0 := Nat.eq_zero_of_not_pos h
    show (((minuteSlots iv.start iv.next).filter fun m => isPeakMinute m).length : ℚ) * 0 = 0
    rw [mul_zero]

theorem expand_opval_getD_sum (iv : MeterInterval) :
    ((Pandas.expand_interval iv).map fun r => r.opval.getD 0).sum
      = if 0 < op_mins iv then iv.dop else 0 := by
  simp only [Pandas.expand_interval]
  rw [List.map_map]
  have hfun : ((fun r : MinuteRow => r.opval.getD 0) ∘ fun m =>
      if isPeakMinute m then
        ({ grid := m,
           pval := some (if 0 < p_mins iv then iv.dp / (p_mins iv : ℚ) else 0),
           opval := none } : MinuteRow)
      else
        { grid := m, pval := none,
          opval := some (if 0 < op_mins iv then iv.dop / (op_mins iv : ℚ) else 0) })
      = fun m => if (!isPeakMinute m)
          then (if 0 < op_mins iv then iv.dop / (op_mins iv : ℚ) else 0) else 0 := by
    funext m
    by_cases h : isPeakMinute m <;> simp [h]
  rw [hfun, sum_map_ite_const]
  by_cases h : 0 < op_mins iv
  · rw [if_pos h, if_pos h]
    have hne : ((op_mins iv : ℚ)) ≠ 0 := Nat.cast_ne_zero.mpr (Nat.pos_iff_ne_zero.mp h)
    show ((op_mins iv : ℚ)) * (iv.dop / (op_mins iv : ℚ)) = iv.dop
    rw [mul_comm, div_mul_cancel₀ _ hne]
  · rw [if_neg h, if_neg h]
    show (((minuteSlots iv.start iv.next).filter fun m => !isPeakMinute m).length : ℚ) * 0 = 0
    rw [mul_zero]

theorem expand_pval_filterMap_sum (iv : MeterInterval) (h : 0 < p_mins iv) :
    ((Pandas.expand_interval iv).filterMap fun r => r.pval).sum = iv.dp := by
  simp only [Pandas.expand_interval]
  rw [List.filterMap_map]
  have hfun : ((fun r : MinuteRow => r.pval) ∘ fun m =>
      if isPeakMinute m then
        ({ grid := m,
           pval := some (if 0 < p_mins iv then iv.dp / (p_mins iv : ℚ) else 0),
           opval := none } : MinuteRow)
      else
        { grid := m, pval := none,
          opval := some (if 0 < op_mins iv then iv.dop / (op_mins iv : ℚ) else 0) })
      = fun m => if isPeakMinute m
          then some (if 0 < p_mins iv then iv.dp / (p_mins iv : ℚ) else 0) else none := by
    funext m
    by_cases hm : isPeakMinute m <;> simp [hm]
  rw [hfun, filterMap_ite, List.sum_replicate, if_pos h]
  have hne : ((p_mins iv : ℚ)) ≠ 0 := Nat.cast_ne_zero.mpr (Nat.pos_iff_ne_zero.mp h)
  show (p_mins iv) • (iv.dp / (p_mins iv : ℚ)) = iv.dp
  rw [nsmul_eq_mul, mul_comm, div_mul_cancel₀ _ hne]

theorem expand_opval_filterMap_sum (iv : MeterInterval) (h : 0 < op_mins iv) :
    ((Pandas.expand_interval iv).filterMap fun r => r.opval).sum = iv.dop := by
  simp only [Pandas.expand_interval]
  rw [List.filterMap_map]
  have hfun : ((fun r : MinuteRow => r.opval) ∘ fun m =>
      if isPeakMinute m then
        ({ grid := m,
           pval := some (if 0 < p_mins iv then iv.dp / (p_mins iv : ℚ) else 0),
           opval := none } : MinuteRow)
      else
        { grid := m, pval := none,
          opval := some (if 0 < op_mins iv then iv.dop / (op_mins iv : ℚ) else 0) })
      = fun m => if (!isPeakMinute m)
          then some (if 0 < op_mins iv then iv.dop / (op_mins iv : ℚ) else 0) else none := by
    funext m
    by_cases hm : isPeakMinute m <;> simp [hm]
  rw [hfun, filterMap_ite, List.sum_replicate, if_pos h]
  have hne : ((op_mins iv : ℚ)) ≠ 0 := Nat.cast_ne_zero.mpr (Nat.pos_iff_ne_zero.mp h)
  show (op_mins iv) • (iv.dop / (op_mins iv : ℚ)) = iv.dop
  rw [nsmul_eq_mul, mul_comm, div_mul_cancel₀ _ hne]

/-! Series-level sums of the minute rows. -/

theorem minuteRows_pval_sum (rs : List Reading) :
    ((Pandas.minuteRows rs).map fun r => r.pval.getD 0).sum
      = (((intervalsOf (Pandas.prepare rs)).filter fun iv => 0 < p_mins iv).map
          fun iv => iv.dp).sum := by
  unfold Pandas.minuteRows
  rw [sum_map_flatMap]
  rw [List.map_congr_left fun iv _ => expand_pval_getD_sum iv]
  rw [show ((fun iv : MeterInterval => if 0 < p_mins iv then iv.dp else 0))
      = fun iv : MeterInterval => if (decide (0 < p_mins iv)) then iv.dp else 0 from
    funext fun iv => by simp]
  exact sum_ite_filter _ _ _

theorem minuteRows_opval_sum (rs : List Reading) :
    ((Pandas.minuteRows rs).map fun r => r.opval.getD 0).sum
      = (((intervalsOf (Pandas.prepare rs)).filter fun iv => 0 < op_mins iv).map
          fun iv => iv.dop).sum := by
  unfold Pandas.minuteRows
  rw [sum_map_flatMap]
  rw [List.map_congr_left fun iv _ => expand_opval_getD_sum iv]
  rw [show ((fun iv : MeterInterval => if 0 < op_mins iv then iv.dop else 0))
      = fun iv : MeterInterval => if (decide (0 < op_mins iv)) then iv.dop else 0 from
    funext fun iv => by simp]
  exact sum_ite_filter _ _ _

/-! Equality of the three pipelines up to the NULL-versus-zero representation. -/

theorem duck_minuteRows_eq (rs : List Reading) : Duck.minuteRows rs = Pandas.minuteRows rs := by
  unfold Duck.minuteRows Pandas.minuteRows
  rw [duck_prepare_eq,
    show Duck.with_rates = Pandas.expand_interval from funext with_rates_eq_expand_interval]

/-- Map a duckdb bucket row to the pandas representation: an absent SUM becomes
the 0.0 that the pandas and polars all-null sums produce. -/
def eraseNulls (b : BucketRow (Option ℚ)) : BucketRow ℚ :=
  { bucket := b.bucket, minDT := b.minDT, maxDT := b.maxDT, minutes := b.minutes,
    pUsage := b.pUsage.getD 0, opUsage := b.opUsage.getD 0 }

theorem sqlSum_getD (l : List (Option ℚ)) : (sqlSum l).getD 0 = pandasSum l := by
  unfold sqlSum pandasSum
  cases h : l.filterMap id <;> simp [h]

theorem duck_pipeline_erase_eq (rs : List Reading) :
    (Duck.pipeline rs).map eraseNulls = Pandas.pipeline rs := by
  unfold Duck.pipeline Pandas.pipeline aggregateWith
  rw [duck_minuteRows_eq, ← pandas_bucket_eq_duck, List.map_map]
  apply List.map_congr_left
  intro k _
  simp only [Function.comp, eraseNulls, sqlSum_getD]

theorem polars_pipeline_eq_pandas (rs : List Reading) :
    Polars.pipeline rs = Pandas.pipeline rs := by
  unfold Polars.pipeline Pandas.pipeline
  rw [polars_minuteRows_eq, ← pandas_bucket_eq_polars]

/-! Claim theorems. -/

/-- C1: per-interval conservation. For every interval whose minute grid contains
a positive number of Peak minutes, the apportioned per-minute Peak values
(each Delta_P / Np) sum back to exactly Delta_P in exact rational arithmetic,
in both the pandas expand_interval and the duckdb with_rates expansion; likewise
for Off-Peak minutes and Delta_OP. -/
theorem per_interval_conservation (iv : MeterInterval) :
    (0 < p_mins iv →
      ((Pandas.expand_interval iv).filterMap fun r => r.pval).sum = iv.dp
      ∧ ((Duck.with_rates iv).filterMap fun r => r.pval).sum = iv.dp)
    ∧ (0 < op_mins iv →
      ((Pandas.expand_interval iv).filterMap fun r => r.opval).sum = iv.dop
      ∧ ((Duck.with_rates iv).filterMap fun r => r.opval).sum = iv.dop) := by
  constructor
  · intro h
    rw [with_rates_eq_expand_interval]
    exact ⟨expand_pval_filterMap_sum iv h, expand_pval_filterMap_sum iv h⟩
  · intro h
    rw [with_rates_eq_expand_interval]
    exact ⟨expand_opval_filterMap_sum iv h, expand_opval_filterMap_sum iv h⟩

/-- C4: tariff boundary classification. A minute is Peak exactly when its time
of day is strictly after 06:30 and at or before 23:30; in particular 06:30 is
Off-Peak, 06:31 is Peak, 23:30 is Peak and 23:31 is Off-Peak. -/
theorem tariff_boundary_classification :
    (∀ ts : Nat, isPeakMinute ts = true ↔ (peak_start < ts % 1440 ∧ ts % 1440 ≤ peak_end))
    ∧ isPeakMinute (mkTS 2024 1 1 6 30) = false
    ∧ isPeakMinute (mkTS 2024 1 1 6 31) = true
    ∧ isPeakMinute (mkTS 2024 1 1 23 30) = true
    ∧ isPeakMinute (mkTS 2024 1 1 23 31) = false := by
  refine ⟨fun ts => ?_, by decide, by decide, by decide, by decide⟩
  simp [isPeakMinute]

/-- C5: the converter subtracts exactly one hour on timestamps inside the BST
window of their year (from 01:00 on the last Sunday of March, inclusive, to
02:00 on the last Sunday of October, exclusive) and is the identity otherwise;
for every year the computed boundary days are Sundays inside the last seven days
of March respectively October, and the duckdb SQL boundaries agree with the
Python ones. -/
theorem bst_conversion_and_last_sunday (dt y : Nat) :
    (Pandas.convert_to_utc dt =
      if Pandas.bst_start (yearOfMinutes dt) ≤ dt ∧ dt < Pandas.bst_end (yearOfMinutes dt)
      then dt - 60 else dt)
    ∧ weekdayOfOrdinal (Pandas.last_sunday y 3) = 6
    ∧ toOrdinal y 3 25 ≤ Pandas.last_sunday y 3
    ∧ Pandas.last_sunday y 3 ≤ toOrdinal y 3 31
    ∧ weekdayOfOrdinal (Pandas.last_sunday y 10) = 6
    ∧ toOrdinal y 10 25 ≤ Pandas.last_sunday y 10
    ∧ Pandas.last_sunday y 10 ≤ toOrdinal y 10 31
    ∧ Duck.bst_start_ts y = Pandas.bst_start y
    ∧ Duck.bst_end_ts y = Pandas.bst_end y := by
  refine ⟨?_, (last_sunday_march y).1, (last_sunday_march y).2.1, (last_sunday_march y).2.2,
    (last_sunday_october y).1, (last_sunday_october y).2.1, (last_sunday_october y).2.2,
    ?_, ?_⟩
  · unfold Pandas.convert_to_utc Pandas.is_bst
    by_cases h1 : Pandas.bst_start (yearOfMinutes dt) ≤ dt
    · by_cases h2 : dt < Pandas.bst_end (yearOfMinutes dt) <;> simp [h1, h2]
    · simp [h1]
  · unfold Duck.bst_start_ts Pandas.bst_start
    rw [duck_bst_start_day_eq]
  · unfold Duck.bst_end_ts Pandas.bst_end
    rw [duck_bst_end_day_eq]

/-- C6: minute-grid enumeration. The slots of an interval are exactly the whole
minutes strictly after the start, up to and including the end, their count is
the floored minute difference, the series of n readings has n - 1 intervals, and
a series consisting of a single (hence final) reading contributes no minute
slots. -/
theorem minute_grid_enumeration :
    (∀ s last m : Nat, m ∈ minuteSlots s last ↔ (s < m ∧ m ≤ last))
    ∧ (∀ s last : Nat, (minuteSlots s last).length = last - s)
    ∧ (∀ rs : List Reading, (intervalsOf rs).length = rs.length - 1)
    ∧ (∀ r : Reading, Pandas.minuteRows [r] = []) := by
  refine ⟨fun s last m => mem_minuteSlots, length_minuteSlots, fun rs => ?_, fun r => ?_⟩
  · unfold intervalsOf
    simp [List.length_zip]
  · rfl

/-- C7: zero-count tariff handling. If an interval has no Peak minute then no
row of its expansion carries a Peak value, and symmetrically for Off-Peak; and
every emitted duckdb value comes from the guarded branch, so any present value
has a positive minute count for its category and equals delta over that count
(the division never sees a zero denominator). -/
theorem zero_count_guard (iv : MeterInterval) :
    (p_mins iv = 0 → ∀ r ∈ Pandas.expand_interval iv, r.pval = none)
    ∧ (op_mins iv = 0 → ∀ r ∈ Pandas.expand_interval iv, r.opval = none)
    ∧ (∀ r ∈ Duck.with_rates iv, ∀ v : ℚ, r.pval = some v →
        0 < p_mins iv ∧ v = iv.dp / (p_mins iv : ℚ))
    ∧ (∀ r ∈ Duck.with_rates iv, ∀ v : ℚ, r.opval = some v →
        0 < op_mins iv ∧ v = iv.dop / (op_mins iv : ℚ)) := by
  refine ⟨?_, ?_, ?_, ?_⟩
  · intro h0 r hr
    simp only [Pandas.expand_interval, List.mem_map] at hr
    obtain ⟨m, hm, rfl⟩ := hr
    by_cases hp : isPeakMinute m
    · exact absurd (p_mins_pos_of_peak_mem hm hp) (by omega)
    · simp [hp]
  · intro h0 r hr
    simp only [Pandas.expand_interval, List.mem_map] at hr
    obtain ⟨m, hm, rfl⟩ := hr
    by_cases hp : isPeakMinute m
    · simp [hp]
    · exact absurd (op_mins_pos_of_offpeak_mem hm (by simpa using hp)) (by omega)
  · intro r hr v hv
    simp only [Duck.with_rates, List.mem_map] at hr
    obtain ⟨m, hm, rfl⟩ := hr
    have hv2 : (if isPeakMinute m ∧ 0 < p_mins iv
        then some (iv.dp / (p_mins iv : ℚ)) else none) = some v := hv
    by_cases hc : isPeakMinute m ∧ 0 < p_mins iv
    · rw [if_pos hc] at hv2
      exact ⟨hc.2, (Option.some_inj.mp hv2).symm⟩
    · rw [if_neg hc] at hv2
      exact absurd hv2 (by simp)
  · intro r hr v hv
    simp only [Duck.with_rates, List.mem_map] at hr
    obtain ⟨m, hm, rfl⟩ := hr
    have hv2 : (if ¬isPeakMinute m ∧ 0 < op_mins iv
        then some (iv.dop / (op_mins iv : ℚ)) else none) = some v := hv
    by_cases hc : ¬isPeakMinute m ∧ 0 < op_mins iv
    · rw [if_pos hc] at hv2
      exact ⟨hc.2, (Option.some_inj.mp hv2).symm⟩
    · rw [if_neg hc] at hv2
      exact absurd hv2 (by simp)

/-- C10: category exclusivity. Every row produced by the expansion (duckdb or
pandas form) carries a value in exactly one of the two columns: a Peak-classified
minute has a present Peak value (whose existence implies Np is at least 1) and an
absent Off-Peak value, and vice versa. -/
theorem category_exclusivity (iv : MeterInterval) (r : MinuteRow)
    (h : r ∈ Duck.with_rates iv ∨ r ∈ Pandas.expand_interval iv) :
    (isPeakMinute r.grid = true ∧ r.pval.isSome = true ∧ r.opval = none ∧ 0 < p_mins iv)
    ∨ (isPeakMinute r.grid = false ∧ r.pval = none ∧ r.opval.isSome = true ∧ 0 < op_mins iv) := by
  have hr : r ∈ Pandas.expand_interval iv := by
    rcases h with h | h
    · rwa [with_rates_eq_expand_interval] at h
    · exact h
  simp only [Pandas.expand_interval, List.mem_map] at hr
  obtain ⟨m, hm, rfl⟩ := hr
  by_cases hp : isPeakMinute m
  · have hpos := p_mins_pos_of_peak_mem hm hp
    left
    refine ⟨?_, ?_, ?_, hpos⟩ <;> simp [hp]
  · have hpos := op_mins_pos_of_offpeak_mem hm (by simpa using hp)
    right
    refine ⟨?_, ?_, ?_, hpos⟩ <;> simp [hp]

/-- C2 amended: global conservation restricted to the intervals that have at
least one minute of the category. The bucket totals of P_Usage equal the sum of
Delta_P over the intervals with a positive Peak-minute count (and likewise for
OP_Usage with Off-Peak); an interval whose grid has no Peak minute contributes
its Delta_P to no bucket at all. Stated for the pandas pipeline and for the
duckdb pipeline with NULL sums read as zero. -/
theorem global_conservation_restricted (rs : List Reading) :
    ((Pandas.pipeline rs).map fun b => b.pUsage).sum
      = (((intervalsOf (Pandas.prepare rs)).filter fun iv => 0 < p_mins iv).map
          fun iv => iv.dp).sum
    ∧ ((Pandas.pipeline rs).map fun b => b.opUsage).sum
      = (((intervalsOf (Pandas.prepare rs)).filter fun iv => 0 < op_mins iv).map
          fun iv => iv.dop).sum
    ∧ ((Duck.pipeline rs).map fun b => b.pUsage.getD 0).sum
      = (((intervalsOf (Pandas.prepare rs)).filter fun iv => 0 < p_mins iv).map
          fun iv => iv.dp).sum := by
  refine ⟨?_, ?_, ?_⟩
  · rw [pandas_pipeline_pUsage_sum, minuteRows_pval_sum]
  · rw [pandas_pipeline_opUsage_sum, minuteRows_opval_sum]
  · have h : ((Duck.pipeline rs).map fun b => b.pUsage.getD 0)
        = ((Duck.pipeline rs).map eraseNulls).map fun b => b.pUsage := by
      rw [List.map_map]
      rfl
    rw [h, duck_pipeline_erase_eq, pandas_pipeline_pUsage_sum, minuteRows_pval_sum]

/-- C9 amended: on inputs whose UTC-converted timestamps are pairwise distinct
(so that the duckdb join on UTC_DateTime is keyed uniquely) and that are not
empty (the pandas and polars scripts fail on an empty frame, see the C8
analysis), the three pipelines produce the same bucket keys, minute counts,
min/max timestamps and usage sums, except that a bucket with no minute of a
category reports NULL P_Usage / OP_Usage in duckdb where pandas and polars
report 0.0: after reading NULL as 0 the outputs are identical. -/
theorem implementations_agree_modulo_null (rs : List Reading)
    (h1 : ((Pandas.prepare rs).map fun r => r.t).Nodup) (h2 : rs ≠ []) :
    Polars.pipeline rs = Pandas.pipeline rs
    ∧ (Duck.pipeline rs).map eraseNulls = Pandas.pipeline rs :=
  ⟨polars_pipeline_eq_pandas rs, duck_pipeline_erase_eq rs⟩

/-! Concrete example input used by the counterexamples and witnesses: the
two-reading scenario of the specification, readings at 2024-01-01T00:00
(P=100, OP=50) and 2024-01-01T00:03 (P=104, OP=53). -/

def exReadings : List Reading :=
  [{ t := mkTS 2024 1 1 0 0, P := 100, OP := 50 },
   { t := mkTS 2024 1 1 0 3, P := 104, OP := 53 }]

/-- Interval whose four minute slots 06:29 to 06:32 straddle the Peak boundary:
two Peak minutes (06:31, 06:32) and two Off-Peak minutes (06:29, 06:30). -/
def peakInterval : MeterInterval :=
  { start := mkTS 2024 1 1 6 28
    next := mkTS 2024 1 1 6 32
    dp := 4
    dop := 2 }

/-- Interval just after midnight whose three minute slots are all Off-Peak. -/
def nightInterval : MeterInterval :=
  { start := mkTS 2024 1 1 0 0
    next := mkTS 2024 1 1 0 3
    dp := 4
    dop := 3 }

/-- Row emitted by the expansion of peakInterval for the Peak minute 06:31. -/
def peakRow : MinuteRow :=
  { grid := mkTS 2024 1 1 6 31
    pval := some ((4 : ℚ) / ((2 : ℕ) : ℚ))
    opval := none }

/-- Row emitted by the expansion of nightInterval for the minute 00:01. -/
def nightRow : MinuteRow :=
  { grid := mkTS 2024 1 1 0 1
    pval := none
    opval := some ((3 : ℚ) / ((3 : ℕ) : ℚ)) }

/-- Witness for C1 at peakInterval: both hypotheses hold there and the Peak and
Off-Peak sums reproduce the deltas. -/
theorem per_interval_conservation_witness :
    0 < p_mins peakInterval ∧ 0 < op_mins peakInterval
    ∧ ((Pandas.expand_interval peakInterval).filterMap fun r => r.pval).sum = peakInterval.dp
    ∧ ((Pandas.expand_interval peakInterval).filterMap fun r => r.opval).sum
        = peakInterval.dop :=
  ⟨by decide, by decide,
   ((per_interval_conservation peakInterval).1 (by decide)).1,
   ((per_interval_conservation peakInterval).2 (by decide)).1⟩

/-- Witness for C7 at nightInterval, which has no Peak minute: its first
expanded row carries no Peak value. -/
theorem zero_count_guard_witness :
    p_mins nightInterval = 0 ∧ nightRow.pval = none :=
  ⟨by decide,
   (zero_count_guard nightInterval).1 (by decide) nightRow
     (by
       have h : Pandas.expand_interval nightInterval
           = [nightRow,
              { grid := mkTS 2024 1 1 0 2
                pval := none
                opval := some ((3 : ℚ) / ((3 : ℕ) : ℚ)) },
              { grid := mkTS 2024 1 1 0 3
                pval := none
                opval := some ((3 : ℚ) / ((3 : ℕ) : ℚ)) }] := rfl
       rw [h]
       exact List.mem_cons_self _ _)⟩

/-- Witness for C10 at the Peak minute 06:31 of peakInterval. -/
theorem category_exclusivity_witness :
    peakRow ∈ Duck.with_rates peakInterval
    ∧ ((isPeakMinute peakRow.grid = true ∧ peakRow.pval.isSome = true
      ∧ peakRow.opval = none ∧ 0 < p_mins peakInterval)
    ∨ (isPeakMinute peakRow.grid = false ∧ peakRow.pval = none
      ∧ peakRow.opval.isSome = true ∧ 0 < op_mins peakInterval)) :=
  have hmem : peakRow ∈ Duck.with_rates peakInterval := by
    have h : Duck.with_rates peakInterval
        = [{ grid := mkTS 2024 1 1 6 29
             pval := none
             opval := some ((2 : ℚ) / ((2 : ℕ) : ℚ)) },
           { grid := mkTS 2024 1 1 6 30
             pval := none
             opval := some ((2 : ℚ) / ((2 : ℕ) : ℚ)) },
           peakRow,
           { grid := mkTS 2024 1 1 6 32
             pval := some ((4 : ℚ) / ((2 : ℕ) : ℚ))
             opval := none }] := rfl
    rw [h]
    exact List.mem_cons_of_mem _ (List.mem_cons_of_mem _ (List.mem_cons_self _ _))
  ⟨hmem, category_exclusivity peakInterval peakRow (Or.inl hmem)⟩

/-- C2 counterexample: for the two-reading input exReadings the sum of Delta_P
over all intervals is 4, but the total P_Usage over all output buckets is 0,
because the single interval has no Peak minute and its Delta_P is dropped. -/
theorem global_conservation_counterexample :
    ((Pandas.pipeline exReadings).map fun b => b.pUsage).sum = 0
    ∧ ((intervalsOf (Pandas.prepare exReadings)).map fun iv => iv.dp).sum = 4
    ∧ (0 : ℚ) ≠ 4 := by
  refine ⟨?_, ?_, by norm_num⟩
  · have h : (Pandas.pipeline exReadings).map (fun b => b.pUsage) = [(0 : ℚ)] := rfl
    rw [h]
    norm_num
  · have h : (intervalsOf (Pandas.prepare exReadings)).map (fun iv => iv.dp)
        = [(104 : ℚ) - 100] := rfl
    rw [h]
    norm_num

/-- C3 counterexample: on the example input the three minutes are all Off-Peak,
so no minute receives the Peak rate 4/3 (every Peak value is absent), and minute
00:01 lands in the bucket keyed 2024-01-01T00:00 rather than 2023-12-31T23:45
(calculate_bucket subtracts the minute from the slot timestamp 00:01, giving
00:00, not from the reading timestamp 00:00); consequently all three minutes
share one bucket instead of being split across two. -/
theorem example_scenario_counterexample :
    ((Pandas.minuteRows exReadings).map fun r => r.pval) = [none, none, none]
    ∧ (none : Option ℚ) ≠ some ((4 : ℚ) / 3)
    ∧ Pandas.calculate_bucket (mkTS 2024 1 1 0 1) = mkTS 2024 1 1 0 0
    ∧ mkTS 2024 1 1 0 0 ≠ mkTS 2023 12 31 23 45
    ∧ ((Pandas.pipeline exReadings).map fun b => b.bucket) = [mkTS 2024 1 1 0 0] := by
  refine ⟨rfl, by simp, by decide, by decide, by decide⟩

/-- C3 amended scenario: Delta_P is 4 and the grid is exactly the three minutes
00:01 to 00:03, all Off-Peak; because the interval has no Peak minute, Delta_P
is not spread at all (each minute carries an absent Peak value) while each
minute carries the Off-Peak rate Delta_OP / 3 (the three Off-Peak values sum to
Delta_OP = 3); minute 00:01 lands in the bucket keyed 2024-01-01T00:00 and all
three minutes land in that single bucket. -/
theorem example_scenario_amended :
    ((intervalsOf (Pandas.prepare exReadings)).map fun iv => iv.dp) = [(104 : ℚ) - 100]
    ∧ (104 : ℚ) - 100 = 4
    ∧ ((Pandas.minuteRows exReadings).map fun r => r.grid)
        = [mkTS 2024 1 1 0 1, mkTS 2024 1 1 0 2, mkTS 2024 1 1 0 3]
    ∧ ((Pandas.minuteRows exReadings).map fun r => isPeakMinute r.grid)
        = [false, false, false]
    ∧ ((Pandas.minuteRows exReadings).map fun r => r.pval) = [none, none, none]
    ∧ ((Pandas.minuteRows exReadings).filterMap fun r => r.opval).sum = 3
    ∧ ((Pandas.pipeline exReadings).map fun b => b.bucket) = [mkTS 2024 1 1 0 0]
    ∧ ((Pandas.pipeline exReadings).map fun b => b.minutes) = [3] := by
  refine ⟨rfl, by norm_num, by decide, by decide, rfl, ?_, by decide, by decide⟩
  have h : (Pandas.minuteRows exReadings).filterMap (fun r => r.opval)
      = [((53 : ℚ) - 50) / ((3 : ℕ) : ℚ), ((53 : ℚ) - 50) / ((3 : ℕ) : ℚ),
         ((53 : ℚ) - 50) / ((3 : ℕ) : ℚ)] := rfl
  rw [h]
  norm_num

/-- C9 counterexample: on the example input the single output bucket has no Peak
minute, so the duckdb pipeline reports a NULL P_Usage while the pandas and
polars pipelines report 0.0: the three outputs are not identical as claimed. -/
theorem implementations_diverge_on_null :
    ((Duck.pipeline exReadings).map fun b => b.pUsage) = [none]
    ∧ ((Pandas.pipeline exReadings).map fun b => b.pUsage) = [(0 : ℚ)]
    ∧ ((Polars.pipeline exReadings).map fun b => b.pUsage) = [(0 : ℚ)]
    ∧ (none : Option ℚ) ≠ some 0 := by
  refine ⟨rfl, rfl, rfl, by simp⟩

/-- Witness for the amended C9 at the example input: the hypotheses hold and the
three pipelines agree up to reading NULL as zero. -/
theorem implementations_agree_modulo_null_witness :
    ((Pandas.prepare exReadings).map fun r => r.t).Nodup
    ∧ exReadings ≠ []
    ∧ Polars.pipeline exReadings = Pandas.pipeline exReadings
    ∧ (Duck.pipeline exReadings).map eraseNulls = Pandas.pipeline exReadings :=
  ⟨by decide, List.cons_ne_nil _ _,
   (implementations_agree_modulo_null exReadings (by decide) (List.cons_ne_nil _ _)).1,
   (implementations_agree_modulo_null exReadings (by decide) (List.cons_ne_nil _ _)).2⟩

/-! Empty-input behaviour. The duckdb script aggregates an empty minute_data
table into an empty CSV. The pandas script however builds the minute DataFrame
with pd.DataFrame(all_minutes): when all_minutes is empty the resulting frame
has no columns at all, and the subsequent column selection
minute_df[MinuteGrid].apply(calculate_bucket) raises a KeyError, so the empty
input aborts instead of producing an empty output. The record-to-frame step is
modelled below: the columns of a frame built from records are the keys occurring
in the records, and selecting an absent column fails. -/

/-- Column names of the minute DataFrame records. -/
inductive ColName
  | minuteGrid
  | pValue
  | opValue
deriving DecidableEq

/-- Columns of pd.DataFrame(all_minutes): the keys of the records; an empty
record list yields a frame with no columns. -/
def minuteFrameCols (rows : List MinuteRow) : List ColName :=
  ((rows.map fun _ => [ColName.minuteGrid, ColName.pValue, ColName.opValue]).flatten).dedup

/-- Step 7 of the pandas script, minute_df[MinuteGrid].apply(calculate_bucket):
selecting the MinuteGrid column succeeds only when the frame has that column;
none models the KeyError raised on a frame without it. -/
def pandasAddBucket (rows : List MinuteRow) : Option (List (MinuteRow × Nat)) :=
  if ColName.minuteGrid ∈ minuteFrameCols rows
  then some (rows.map fun r => (r, Pandas.calculate_bucket r.grid))
  else none

/-- C8: on a fully empty input the duckdb pipeline yields an empty bucket table
(and the bucketing algorithm itself maps no readings to no buckets), but the
pandas script does not reach an empty output: its minute DataFrame has no
MinuteGrid column, so the bucket-column step fails with a KeyError instead. -/
theorem empty_input_behaviour :
    Duck.pipeline [] = []
    ∧ Pandas.minuteRows [] = []
    ∧ minuteFrameCols (Pandas.minuteRows []) = []
    ∧ pandasAddBucket (Pandas.minuteRows []) = none :=
  ⟨rfl, rfl, rfl, rfl⟩

/-- On any non-empty minute series the column exists and the bucket step of the
pandas script succeeds, so the KeyError branch is reached exactly on the empty
frame. -/
theorem pandasAddBucket_nonempty (rows : List MinuteRow) (hne : rows ≠ []) :
    pandasAddBucket rows = some (rows.map fun r => (r, Pandas.calculate_bucket r.grid)) := by
  unfold pandasAddBucket
  rw [if_pos]
  unfold minuteFrameCols
  rw [List.mem_dedup]
  cases rows with
  | nil => exact absurd rfl hne
  | cons r rest => simp
